/-
Verification of the ROI/DSE calculator core against its specification.

Shallow embedding of the calculation engine (src/lib/roi), the pricing
resolver (src/lib/pricing.ts), the input validator (src/lib/schema.ts)
and the sensitivity analyzer.  JavaScript numbers are modelled by exact
rationals (ℚ); the only place where IEEE special values matter — the
unguarded division in the breakeven-users formula — is modelled by an
explicit `JsNum` type carrying infinities and NaN with JavaScript's
division semantics.  Display-only `formula` strings assembled with
`toFixed` inside the audit-step records are presentation text never read
by any logic and are elided from the embedded step records.
-/
import Mathlib

/-- JavaScript `Math.round`: round half towards positive infinity. -/
def jsRound (q : ℚ) : ℤ := ⌊q + 1/2⌋

/-- A JavaScript number as needed by the breakeven computation: a finite
rational, one of the two infinities, or NaN. -/
inductive JsNum where
  | fin (q : ℚ)
  | posInf
  | negInf
  | nan
deriving DecidableEq

/-- JavaScript division on `JsNum`: finite/0 gives a signed infinity
(or NaN for 0/0), finite/±∞ gives 0, ±∞/finite keeps the sign. -/
def jsDiv : JsNum → JsNum → JsNum
  | .fin a, .fin b =>
      if b = 0 then
        if a = 0 then .nan else if 0 < a then .posInf else .negInf
      else .fin (a / b)
  | .fin _, .posInf => .fin 0
  | .fin _, .negInf => .fin 0
  | .posInf, .fin b => if 0 ≤ b then .posInf else .negInf
  | .negInf, .fin b => if 0 ≤ b then .negInf else .posInf
  | _, _ => .nan

/-- JavaScript `Math.ceil` lifted to `JsNum`. -/
def jsCeil : JsNum → JsNum
  | .fin q => .fin ⌈q⌉
  | .posInf => .posInf
  | .negInf => .negInf
  | .nan => .nan

/-- Currency enumeration from src/lib/schema.ts (`CurrencyEnum`). -/
inductive Currency where
  | EUR
  | GBP
  | USD
deriving DecidableEq

/-- One pricing tier record from src/lib/pricing.ts. -/
structure PricingTier where
  headcount : ℚ
  annualPrice : ℚ
  perUser : ℚ
  description : String

/-- Result record of the pricing resolver (src/lib/pricing.ts). -/
structure SoftwareCost where
  annualPrice : ℚ
  perUser : ℚ
  tier : String

/-- The tiered pricing table `SOFTWARE_PRICING_TIERS` from src/lib/pricing.ts. -/
def SOFTWARE_PRICING_TIERS : List PricingTier :=
  [ ⟨50, 750, 15, "Small business (50+ employees)"⟩,
    ⟨100, 1200, 12, "Small-medium business (100+ employees)"⟩,
    ⟨250, 2500, 10, "Medium business (250+ employees)"⟩,
    ⟨500, 4500, 9, "Medium-large business (500+ employees)"⟩,
    ⟨1000, 8000, 8, "Large business (1000+ employees)"⟩,
    ⟨2500, 17500, 7, "Enterprise (2500+ employees)"⟩,
    ⟨5000, 30000, 6, "Large enterprise (5000+ employees)"⟩,
    ⟨10000, 55000, 5.50, "Mega enterprise (10000+ employees)"⟩ ]

/-- The source scans `SOFTWARE_PRICING_TIERS` from the last index down and
picks the first tier whose threshold is ≤ headcount; this helper scans a
list in order and picks the first match. -/
def selectTierAux (headcount : ℚ) : List PricingTier → Option PricingTier
  | [] => none
  | t :: ts => if headcount ≥ t.headcount then some t else selectTierAux headcount ts

/-- Tier selected by the loop in `calculateSoftwareCost`: highest threshold
≤ headcount, defaulting to the first (lowest) tier. -/
def selectedTier (headcount : ℚ) : PricingTier :=
  (selectTierAux headcount SOFTWARE_PRICING_TIERS.reverse).getD
    ⟨50, 750, 15, "Small business (50+ employees)"⟩

/-- Function `calculateSoftwareCost` from src/lib/pricing.ts: tier lookup, volume
discounts at 5,000 (5%) and 10,000 (10%) headcount with per-user price
recomputed from the discounted price, then `Math.round` on the annual
price and two-decimal rounding on the per-user price. -/
def calculateSoftwareCost (headcount : ℚ) : SoftwareCost :=
  let tier := selectedTier headcount
  let finalPrice :=
    if headcount ≥ 10000 then tier.annualPrice * 0.9
    else if headcount ≥ 5000 then tier.annualPrice * 0.95
    else tier.annualPrice
  let finalPerUser :=
    if headcount ≥ 10000 then finalPrice / headcount
    else if headcount ≥ 5000 then finalPrice / headcount
    else tier.perUser
  { annualPrice := (jsRound finalPrice : ℚ),
    perUser := (jsRound (finalPerUser * 100) : ℚ) / 100,
    tier := tier.description }

/-- The input parameter set `ROICalculationInputs` from src/lib/schema.ts. -/
structure ROICalculationInputs where
  headcount : ℚ
  dseUserPercentage : ℚ
  adminSalary : ℚ
  adminTimeNow : ℚ
  adminTimeWithSoftware : ℚ
  softwarePricePerUser : ℚ
  baselineAbsenceRate : ℚ
  costPerAbsenceDay : ℚ
  msdPrevalence : ℚ
  reductionInMsdAbsence : ℚ
  reductionInClinicalInterventions : ℚ
  costPerClinicalIntervention : ℚ
  workDaysPerYear : ℚ
  absenceDueToMsdPercentage : ℚ
  msdNeedingInterventionPercentage : ℚ
  adminOnCostPercentage : ℚ
  currency : Currency
deriving DecidableEq

/-- The three scenario tags of the engine. -/
inductive Scenario where
  | conservative
  | expected
  | stretch
deriving DecidableEq

/-- One audit step record pushed by the engine.  The source record also
carries a display-only `formula` string assembled with `toFixed`; it is
never read by any logic and is elided here. -/
structure CalculationStep where
  step : String
  value : JsNum
  unit : String
deriving DecidableEq

/-- The engine's result record `ROICalculationResults`. -/
structure ROICalculationResults where
  isValid : Bool
  validationErrors : List String
  adminCostNow : ℚ
  adminCostWithSoftware : ℚ
  adminSaving : ℚ
  licenceCost : ℚ
  softwareCostPerUser : ℚ
  msdAbsenceBaselineDays : ℚ
  absenceSaving : ℚ
  interventionSaving : ℚ
  totalAnnualSavings : ℚ
  netBenefit : ℚ
  roiPercentage : ℚ
  paybackMonths : ℚ
  breakevenUsers : JsNum
  calculationSteps : List CalculationStep

/-- Scenario-adjusted `adminTimeWithSoftware`: conservative adds 0.5
days/week, the other scenarios leave it unchanged. -/
def adjustedAdminTimeWithSoftware (i : ROICalculationInputs) : Scenario → ℚ
  | .conservative => i.adminTimeWithSoftware + 0.5
  | .expected => i.adminTimeWithSoftware
  | .stretch => i.adminTimeWithSoftware

/-- Scenario-adjusted `reductionInMsdAbsence`: halved under conservative,
multiplied by 1.5 under stretch. -/
def adjustedReductionInMsdAbsence (i : ROICalculationInputs) : Scenario → ℚ
  | .conservative => i.reductionInMsdAbsence * 0.5
  | .expected => i.reductionInMsdAbsence
  | .stretch => i.reductionInMsdAbsence * 1.5

/-- Scenario-adjusted `reductionInClinicalInterventions`: halved under
conservative, multiplied by 1.5 under stretch. -/
def adjustedReductionInClinicalInterventions (i : ROICalculationInputs) : Scenario → ℚ
  | .conservative => i.reductionInClinicalInterventions * 0.5
  | .expected => i.reductionInClinicalInterventions
  | .stretch => i.reductionInClinicalInterventions * 1.5

/-- Derived value `onCostMultiplier = 1 + adminOnCostPercentage / 100`. -/
def onCostMultiplier (i : ROICalculationInputs) : ℚ :=
  1 + i.adminOnCostPercentage / 100

/-- Derived value `dseUserCount = headcount × dseUserPercentage / 100`. -/
def dseUserCount (i : ROICalculationInputs) : ℚ :=
  i.headcount * (i.dseUserPercentage / 100)

/-- Step 1: admin cost of the current manual process. -/
def adminCostNow (i : ROICalculationInputs) : ℚ :=
  i.adminSalary * onCostMultiplier i * (i.adminTimeNow / 5)

/-- Step 2: admin cost with software (scenario-adjusted time). -/
def adminCostWithSoftware (i : ROICalculationInputs) (s : Scenario) : ℚ :=
  i.adminSalary * onCostMultiplier i * (adjustedAdminTimeWithSoftware i s / 5)

/-- Step 3: admin saving. -/
def adminSaving (i : ROICalculationInputs) (s : Scenario) : ℚ :=
  adminCostNow i - adminCostWithSoftware i s

/-- Step 4: annual licence cost from the pricing resolver. -/
def licenceCost (i : ROICalculationInputs) : ℚ :=
  (calculateSoftwareCost i.headcount).annualPrice

/-- Step 5: MSD-related absence baseline days. -/
def msdAbsenceBaselineDays (i : ROICalculationInputs) : ℚ :=
  dseUserCount i * (i.baselineAbsenceRate / 100) * i.workDaysPerYear *
    (i.absenceDueToMsdPercentage / 100)

/-- Step 6: absence-reduction saving (scenario-adjusted reduction). -/
def absenceSaving (i : ROICalculationInputs) (s : Scenario) : ℚ :=
  msdAbsenceBaselineDays i * i.costPerAbsenceDay *
    (adjustedReductionInMsdAbsence i s / 100)

/-- Step 7: clinical-intervention saving (scenario-adjusted reduction). -/
def interventionSaving (i : ROICalculationInputs) (s : Scenario) : ℚ :=
  dseUserCount i * (i.msdPrevalence / 100) *
    (adjustedReductionInClinicalInterventions i s / 100) *
    i.costPerClinicalIntervention * (i.msdNeedingInterventionPercentage / 100)

/-- Step 8: total annual savings. -/
def totalAnnualSavings (i : ROICalculationInputs) (s : Scenario) : ℚ :=
  adminSaving i s + absenceSaving i s + interventionSaving i s

/-- Step 9: net benefit. -/
def netBenefit (i : ROICalculationInputs) (s : Scenario) : ℚ :=
  totalAnnualSavings i s - licenceCost i

/-- Step 10: ROI percentage, defined as 0 when the licence cost is not
positive. -/
def roiPercentage (i : ROICalculationInputs) (s : Scenario) : ℚ :=
  if licenceCost i > 0 then netBenefit i s / licenceCost i * 100 else 0

/-- Step 11: payback months, capped at 36, denominator floored at 1. -/
def paybackMonths (i : ROICalculationInputs) (s : Scenario) : ℚ :=
  min 36 (12 * licenceCost i / max (totalAnnualSavings i s) 1)

/-- Step 12: breakeven users, `Math.ceil(licenceCost /
(totalAnnualSavings / dseUserCount))` under JavaScript number semantics
(the inner division is unguarded and may produce an infinity). -/
def breakevenUsers (i : ROICalculationInputs) (s : Scenario) : JsNum :=
  if totalAnnualSavings i s > 0 then
    jsCeil (jsDiv (.fin (licenceCost i)) (jsDiv (.fin (totalAnnualSavings i s)) (.fin (dseUserCount i))))
  else .fin 0

/-- The all-zero result returned by the `headcount == 0` short-circuit. -/
def zeroHeadcountResult : ROICalculationResults :=
  { isValid := true
    validationErrors := []
    adminCostNow := 0
    adminCostWithSoftware := 0
    adminSaving := 0
    licenceCost := 0
    softwareCostPerUser := 0
    msdAbsenceBaselineDays := 0
    absenceSaving := 0
    interventionSaving := 0
    totalAnnualSavings := 0
    netBenefit := 0
    roiPercentage := 0
    paybackMonths := 0
    breakevenUsers := .fin 0
    calculationSteps := [⟨"Edge Case: Zero Headcount", .fin 0, "N/A"⟩] }

/-- The normal-path result of `calculateROI` (headcount ≠ 0): the derived
sequence assembled into the result record together with the twelve audit
steps pushed by the source. -/
def calculateROIBody (i : ROICalculationInputs) (s : Scenario) : ROICalculationResults :=
  { isValid := true
    validationErrors := []
    adminCostNow := adminCostNow i
    adminCostWithSoftware := adminCostWithSoftware i s
    adminSaving := adminSaving i s
    licenceCost := licenceCost i
    softwareCostPerUser := (calculateSoftwareCost i.headcount).perUser
    msdAbsenceBaselineDays := msdAbsenceBaselineDays i
    absenceSaving := absenceSaving i s
    interventionSaving := interventionSaving i s
    totalAnnualSavings := totalAnnualSavings i s
    netBenefit := netBenefit i s
    roiPercentage := roiPercentage i s
    paybackMonths := paybackMonths i s
    breakevenUsers := breakevenUsers i s
    calculationSteps :=
      [ ⟨"Admin Cost (Current)", .fin (adminCostNow i), "€/year"⟩,
        ⟨"Admin Cost (With Software)", .fin (adminCostWithSoftware i s), "€/year"⟩,
        ⟨"Admin Time Savings", .fin (adminSaving i s), "€/year"⟩,
        ⟨"Software Licence Cost", .fin (licenceCost i), "€/year"⟩,
        ⟨"MSD Absence Baseline Days", .fin (msdAbsenceBaselineDays i), "days/year"⟩,
        ⟨"Absence Reduction Savings", .fin (absenceSaving i s), "€/year"⟩,
        ⟨"Clinical Intervention Savings", .fin (interventionSaving i s), "€/year"⟩,
        ⟨"Total Annual Savings", .fin (totalAnnualSavings i s), "€/year"⟩,
        ⟨"Net Annual Benefit", .fin (netBenefit i s), "€/year"⟩,
        ⟨"ROI Percentage", .fin (roiPercentage i s), "%"⟩,
        ⟨"Payback Period", .fin (paybackMonths i s), "months"⟩,
        ⟨"Breakeven Users", breakevenUsers i s, "users"⟩ ] }

/-- Function `calculateROI` from the engine source: zero-headcount short-circuit,
then the derived sequence.  (The source's `try/catch` wrapper is dead for
numeric inputs — rational arithmetic never throws — and is not modelled.) -/
def calculateROI (i : ROICalculationInputs) (s : Scenario) : ROICalculationResults :=
  if i.headcount = 0 then zeroHeadcountResult else calculateROIBody i s

/-- Record `ScenarioResults`: one engine result per scenario tag. -/
structure ScenarioResults where
  conservative : ROICalculationResults
  expected : ROICalculationResults
  stretch : ROICalculationResults

/-- Function `calculateAllScenarios`: run the engine once per scenario. -/
def calculateAllScenarios (i : ROICalculationInputs) : ScenarioResults :=
  { conservative := calculateROI i .conservative
    expected := calculateROI i .expected
    stretch := calculateROI i .stretch }

/-- A conditional single-message error list: `[msg]` when the constraint
is violated, `[]` otherwise.  Mirrors one zod check. -/
def errIf (c : Prop) [Decidable c] (msg : String) : List String :=
  if c then [msg] else []

/-- The validation issues produced by `ROICalculationSchema.safeParse` on a
well-typed numeric record, in schema field order, formatted as
`field: message` as in `validateInputs` (src/lib/schema.ts).  The shared
zod validators: percentage `min(0).max(100)`, daysPerWeek `min(0).max(7)`,
currency amount `gt(0)`, headcount `int().min(1).max(100000)`,
workDaysPerYear `int().min(200).max(260)`. -/
def validationErrorList (i : ROICalculationInputs) : List String :=
  errIf (i.headcount.den ≠ 1) "headcount: Must be whole number" ++
  errIf (i.headcount < 1) "headcount: Must be positive" ++
  errIf (100000 < i.headcount) "headcount: Maximum 100,000 employees" ++
  errIf (i.dseUserPercentage < 0) "dseUserPercentage: Must be 0% or higher" ++
  errIf (100 < i.dseUserPercentage) "dseUserPercentage: Cannot exceed 100%" ++
  errIf (i.adminSalary ≤ 0) "adminSalary: Must be greater than 0" ++
  errIf (i.adminTimeNow < 0) "adminTimeNow: Must be 0 or higher" ++
  errIf (7 < i.adminTimeNow) "adminTimeNow: Cannot exceed 7 days" ++
  errIf (i.adminTimeWithSoftware < 0) "adminTimeWithSoftware: Must be 0 or higher" ++
  errIf (7 < i.adminTimeWithSoftware) "adminTimeWithSoftware: Cannot exceed 7 days" ++
  errIf (i.softwarePricePerUser ≤ 0) "softwarePricePerUser: Must be greater than 0" ++
  errIf (i.baselineAbsenceRate < 0) "baselineAbsenceRate: Must be 0% or higher" ++
  errIf (100 < i.baselineAbsenceRate) "baselineAbsenceRate: Cannot exceed 100%" ++
  errIf (i.costPerAbsenceDay ≤ 0) "costPerAbsenceDay: Must be greater than 0" ++
  errIf (i.msdPrevalence < 0) "msdPrevalence: Must be 0% or higher" ++
  errIf (100 < i.msdPrevalence) "msdPrevalence: Cannot exceed 100%" ++
  errIf (i.reductionInMsdAbsence < 0) "reductionInMsdAbsence: Must be 0% or higher" ++
  errIf (100 < i.reductionInMsdAbsence) "reductionInMsdAbsence: Cannot exceed 100%" ++
  errIf (i.reductionInClinicalInterventions < 0)
    "reductionInClinicalInterventions: Must be 0% or higher" ++
  errIf (100 < i.reductionInClinicalInterventions)
    "reductionInClinicalInterventions: Cannot exceed 100%" ++
  errIf (i.costPerClinicalIntervention ≤ 0)
    "costPerClinicalIntervention: Must be greater than 0" ++
  errIf (i.workDaysPerYear.den ≠ 1) "workDaysPerYear: Expected integer, received float" ++
  errIf (i.workDaysPerYear < 200) "workDaysPerYear: Minimum 200 work days" ++
  errIf (260 < i.workDaysPerYear) "workDaysPerYear: Maximum 260 work days" ++
  errIf (i.absenceDueToMsdPercentage < 0) "absenceDueToMsdPercentage: Must be 0% or higher" ++
  errIf (100 < i.absenceDueToMsdPercentage) "absenceDueToMsdPercentage: Cannot exceed 100%" ++
  errIf (i.msdNeedingInterventionPercentage < 0)
    "msdNeedingInterventionPercentage: Must be 0% or higher" ++
  errIf (100 < i.msdNeedingInterventionPercentage)
    "msdNeedingInterventionPercentage: Cannot exceed 100%" ++
  errIf (i.adminOnCostPercentage < 0) "adminOnCostPercentage: Must be 0% or higher" ++
  errIf (100 < i.adminOnCostPercentage) "adminOnCostPercentage: Cannot exceed 100%"

/-- Outcome of `validateInputs`: parsed data on success, otherwise the
formatted error list. -/
inductive ValidationOutcome where
  | success (data : ROICalculationInputs)
  | failure (errors : List String)
deriving DecidableEq

/-- Function `validateInputs` from src/lib/schema.ts on a well-typed numeric
record: success exactly when no declared field constraint is violated. -/
def validateInputs (i : ROICalculationInputs) : ValidationOutcome :=
  if validationErrorList i = [] then .success i else .failure (validationErrorList i)

/-- The schema constraints as a proposition: integral headcount in
[1, 100000], percentages in [0, 100], currency amounts strictly positive,
days/week in [0, 7], integral work days in [200, 260]. -/
def ValidInputs (i : ROICalculationInputs) : Prop :=
  i.headcount.den = 1 ∧ 1 ≤ i.headcount ∧ i.headcount ≤ 100000 ∧
  0 ≤ i.dseUserPercentage ∧ i.dseUserPercentage ≤ 100 ∧
  0 < i.adminSalary ∧
  0 ≤ i.adminTimeNow ∧ i.adminTimeNow ≤ 7 ∧
  0 ≤ i.adminTimeWithSoftware ∧ i.adminTimeWithSoftware ≤ 7 ∧
  0 < i.softwarePricePerUser ∧
  0 ≤ i.baselineAbsenceRate ∧ i.baselineAbsenceRate ≤ 100 ∧
  0 < i.costPerAbsenceDay ∧
  0 ≤ i.msdPrevalence ∧ i.msdPrevalence ≤ 100 ∧
  0 ≤ i.reductionInMsdAbsence ∧ i.reductionInMsdAbsence ≤ 100 ∧
  0 ≤ i.reductionInClinicalInterventions ∧ i.reductionInClinicalInterventions ≤ 100 ∧
  0 < i.costPerClinicalIntervention ∧
  i.workDaysPerYear.den = 1 ∧ 200 ≤ i.workDaysPerYear ∧ i.workDaysPerYear ≤ 260 ∧
  0 ≤ i.absenceDueToMsdPercentage ∧ i.absenceDueToMsdPercentage ≤ 100 ∧
  0 ≤ i.msdNeedingInterventionPercentage ∧ i.msdNeedingInterventionPercentage ≤ 100 ∧
  0 ≤ i.adminOnCostPercentage ∧ i.adminOnCostPercentage ≤ 100

instance (i : ROICalculationInputs) : Decidable (ValidInputs i) := by
  unfold ValidInputs; infer_instance

theorem errIf_eq_nil {c : Prop} [Decidable c] {m : String} : errIf c m = [] ↔ ¬c := by
  unfold errIf
  split <;> simp [*]

/-- The error list is empty exactly when the schema constraints hold. -/
theorem validationErrorList_eq_nil_iff (i : ROICalculationInputs) :
    validationErrorList i = [] ↔ ValidInputs i := by
  unfold validationErrorList ValidInputs
  simp only [List.append_eq_nil, errIf_eq_nil]
  push_neg
  tauto

/-- The schema predicate coincides with success of the embedded
`validateInputs`. -/
theorem validateInputs_success_iff (i : ROICalculationInputs) :
    validateInputs i = .success i ↔ ValidInputs i := by
  rw [← validationErrorList_eq_nil_iff]
  unfold validateInputs
  constructor
  · intro h
    by_cases hc : validationErrorList i = []
    · exact hc
    · rw [if_neg hc] at h
      exact absurd h (by simp)
  · intro h
    rw [if_pos h]

/-- The numeric field identifiers of `ROICalculationInputs` (the source
indexes the record by `keyof ROICalculationInputs` and casts the value
`as number`; the non-numeric `currency` key is never analyzed). -/
inductive InputField where
  | headcount
  | dseUserPercentage
  | adminSalary
  | adminTimeNow
  | adminTimeWithSoftware
  | softwarePricePerUser
  | baselineAbsenceRate
  | costPerAbsenceDay
  | msdPrevalence
  | reductionInMsdAbsence
  | reductionInClinicalInterventions
  | costPerClinicalIntervention
  | workDaysPerYear
  | absenceDueToMsdPercentage
  | msdNeedingInterventionPercentage
  | adminOnCostPercentage
deriving DecidableEq

/-- Dynamic field read `inputs[param]`. -/
def getField (i : ROICalculationInputs) : InputField → ℚ
  | .headcount => i.headcount
  | .dseUserPercentage => i.dseUserPercentage
  | .adminSalary => i.adminSalary
  | .adminTimeNow => i.adminTimeNow
  | .adminTimeWithSoftware => i.adminTimeWithSoftware
  | .softwarePricePerUser => i.softwarePricePerUser
  | .baselineAbsenceRate => i.baselineAbsenceRate
  | .costPerAbsenceDay => i.costPerAbsenceDay
  | .msdPrevalence => i.msdPrevalence
  | .reductionInMsdAbsence => i.reductionInMsdAbsence
  | .reductionInClinicalInterventions => i.reductionInClinicalInterventions
  | .costPerClinicalIntervention => i.costPerClinicalIntervention
  | .workDaysPerYear => i.workDaysPerYear
  | .absenceDueToMsdPercentage => i.absenceDueToMsdPercentage
  | .msdNeedingInterventionPercentage => i.msdNeedingInterventionPercentage
  | .adminOnCostPercentage => i.adminOnCostPercentage

/-- Dynamic field write `(modifiedInputs as any)[param] = v` on a copy. -/
def setField (i : ROICalculationInputs) : InputField → ℚ → ROICalculationInputs
  | .headcount, v => { i with headcount := v }
  | .dseUserPercentage, v => { i with dseUserPercentage := v }
  | .adminSalary, v => { i with adminSalary := v }
  | .adminTimeNow, v => { i with adminTimeNow := v }
  | .adminTimeWithSoftware, v => { i with adminTimeWithSoftware := v }
  | .softwarePricePerUser, v => { i with softwarePricePerUser := v }
  | .baselineAbsenceRate, v => { i with baselineAbsenceRate := v }
  | .costPerAbsenceDay, v => { i with costPerAbsenceDay := v }
  | .msdPrevalence, v => { i with msdPrevalence := v }
  | .reductionInMsdAbsence, v => { i with reductionInMsdAbsence := v }
  | .reductionInClinicalInterventions, v => { i with reductionInClinicalInterventions := v }
  | .costPerClinicalIntervention, v => { i with costPerClinicalIntervention := v }
  | .workDaysPerYear, v => { i with workDaysPerYear := v }
  | .absenceDueToMsdPercentage, v => { i with absenceDueToMsdPercentage := v }
  | .msdNeedingInterventionPercentage, v => { i with msdNeedingInterventionPercentage := v }
  | .adminOnCostPercentage, v => { i with adminOnCostPercentage := v }

/-- Display table `getParameterUnit` from the source. -/
def getParameterUnit : InputField → String
  | .headcount => "employees"
  | .dseUserPercentage => "%"
  | .adminSalary => "€/year"
  | .adminTimeNow => "days/week"
  | .adminTimeWithSoftware => "days/week"
  | .softwarePricePerUser => "€/user/year"
  | .baselineAbsenceRate => "%"
  | .costPerAbsenceDay => "€/day"
  | .msdPrevalence => "%"
  | .reductionInMsdAbsence => "%"
  | .reductionInClinicalInterventions => "%"
  | .costPerClinicalIntervention => "€"
  | .workDaysPerYear => "days"
  | .absenceDueToMsdPercentage => "%"
  | .msdNeedingInterventionPercentage => "%"
  | .adminOnCostPercentage => "%"

/-- Display table `getParameterDisplayName` from the source. -/
def getParameterDisplayName : InputField → String
  | .headcount => "Company Size"
  | .dseUserPercentage => "DSE User %"
  | .adminSalary => "Admin Salary"
  | .adminTimeNow => "Current Admin Time"
  | .adminTimeWithSoftware => "Software Admin Time"
  | .softwarePricePerUser => "Software Price"
  | .baselineAbsenceRate => "Baseline Absence Rate"
  | .costPerAbsenceDay => "Cost per Absence Day"
  | .msdPrevalence => "MSD Prevalence"
  | .reductionInMsdAbsence => "MSD Absence Reduction"
  | .reductionInClinicalInterventions => "Intervention Reduction"
  | .costPerClinicalIntervention => "Intervention Cost"
  | .workDaysPerYear => "Work Days per Year"
  | .absenceDueToMsdPercentage => "MSD Absence %"
  | .msdNeedingInterventionPercentage => "MSD Intervention %"
  | .adminOnCostPercentage => "Admin On-Cost %"

/-- One sensitivity point `{variation, roi, paybackMonths, netBenefit}`. -/
structure SensitivityPoint where
  variation : ℚ
  roi : ℚ
  paybackMonths : ℚ
  netBenefit : ℚ
deriving DecidableEq

/-- One sensitivity curve per analyzed field. -/
structure SensitivityAnalysis where
  parameter : String
  baseline : ℚ
  unit : String
  variations : List SensitivityPoint

/-- The fixed variation offsets `[-30, -20, -10, 0, 10, 20, 30]`. -/
def sensitivityVariations : List ℚ := [-30, -20, -10, 0, 10, 20, 30]

/-- The point the analyzer records for one field at one variation:
shift the field additively by `baseline × variation/100`, run the engine
under the expected scenario, and keep roi/paybackMonths/netBenefit. -/
def sensitivityPoint (i : ROICalculationInputs) (param : InputField) (variation : ℚ) :
    SensitivityPoint :=
  let baseline := getField i param
  let change := baseline * (variation / 100)
  let modifiedInputs := setField i param (baseline + change)
  let result := calculateROI modifiedInputs .expected
  ⟨variation, result.roiPercentage, result.paybackMonths, result.netBenefit⟩

/-- Function `performSensitivityAnalysis` from the source (default parameter list as
in the source signature). -/
def performSensitivityAnalysis (i : ROICalculationInputs)
    (parameters : List InputField :=
      [.adminSalary, .adminTimeNow, .reductionInMsdAbsence, .reductionInClinicalInterventions]) :
    List SensitivityAnalysis :=
  parameters.map fun param =>
    { parameter := getParameterDisplayName param
      baseline := getField i param
      unit := getParameterUnit param
      variations := sensitivityVariations.map (sensitivityPoint i param) }

/-- The concrete parameter set of the original test harness's
`validateBasicCalculations` (src/lib/test-runner.ts). -/
def testInputs : ROICalculationInputs :=
  { headcount := 100
    dseUserPercentage := 60
    adminSalary := 50000
    adminTimeNow := 2
    adminTimeWithSoftware := 1
    softwarePricePerUser := 15
    baselineAbsenceRate := 5
    costPerAbsenceDay := 300
    msdPrevalence := 25
    reductionInMsdAbsence := 15
    reductionInClinicalInterventions := 25
    costPerClinicalIntervention := 600
    workDaysPerYear := 220
    absenceDueToMsdPercentage := 30
    msdNeedingInterventionPercentage := 20
    adminOnCostPercentage := 30
    currency := .EUR }

/-- When headcount is nonzero the engine runs its derived sequence. -/
theorem calculateROI_eq_body (i : ROICalculationInputs) (s : Scenario)
    (h : i.headcount ≠ 0) : calculateROI i s = calculateROIBody i s := by
  unfold calculateROI
  exact if_neg h

/-- Validity forces a nonzero headcount. -/
theorem ValidInputs.headcount_ne_zero {i : ROICalculationInputs}
    (hV : ValidInputs i) : i.headcount ≠ 0 := by
  obtain ⟨-, h1, -⟩ := hV
  intro h0
  rw [h0] at h1
  norm_num at h1

/-- The pricing resolver never returns an annual price below the lowest
tier's 750, for any headcount. -/
theorem annualPrice_ge_750 (hc : ℚ) : 750 ≤ (calculateSoftwareCost hc).annualPrice := by
  unfold calculateSoftwareCost selectedTier
  simp only [SOFTWARE_PRICING_TIERS, List.reverse, List.reverseAux, selectTierAux]
  split_ifs <;> norm_num [jsRound]

/-- The licence cost used by the engine on a valid input is at least 750. -/
theorem licenceCost_ge_750 (i : ROICalculationInputs) : 750 ≤ licenceCost i :=
  annualPrice_ge_750 i.headcount


/-- C3: for every parameter set with headcount = 0 and every scenario,
`calculateROI` short-circuits to a valid all-zero result whose audit
trail is the single zero-headcount edge-case record. -/
theorem roi_C3 (p : ROICalculationInputs) (s : Scenario) (h : p.headcount = 0) :
    (calculateROI p s).isValid = true ∧
    (calculateROI p s).validationErrors = [] ∧
    (calculateROI p s).adminCostNow = 0 ∧
    (calculateROI p s).adminCostWithSoftware = 0 ∧
    (calculateROI p s).adminSaving = 0 ∧
    (calculateROI p s).licenceCost = 0 ∧
    (calculateROI p s).softwareCostPerUser = 0 ∧
    (calculateROI p s).msdAbsenceBaselineDays = 0 ∧
    (calculateROI p s).absenceSaving = 0 ∧
    (calculateROI p s).interventionSaving = 0 ∧
    (calculateROI p s).totalAnnualSavings = 0 ∧
    (calculateROI p s).netBenefit = 0 ∧
    (calculateROI p s).roiPercentage = 0 ∧
    (calculateROI p s).paybackMonths = 0 ∧
    (calculateROI p s).breakevenUsers = .fin 0 ∧
    (calculateROI p s).calculationSteps = [⟨"Edge Case: Zero Headcount", .fin 0, "N/A"⟩] := by
  have he : calculateROI p s = zeroHeadcountResult := by
    unfold calculateROI
    exact if_pos h
  rw [he]
  exact ⟨rfl, rfl, rfl, rfl, rfl, rfl, rfl, rfl, rfl, rfl, rfl, rfl, rfl, rfl, rfl, rfl⟩

/-- Witness for C3 at a concrete zero-headcount input. -/
theorem roi_C3_witness :
    ({ testInputs with headcount := 0 } : ROICalculationInputs).headcount = 0 ∧
    (calculateROI { testInputs with headcount := 0 } .conservative).isValid = true ∧
    (calculateROI { testInputs with headcount := 0 } .conservative).totalAnnualSavings = 0 ∧
    (calculateROI { testInputs with headcount := 0 } .conservative).calculationSteps =
      [⟨"Edge Case: Zero Headcount", .fin 0, "N/A"⟩] :=
  ⟨rfl,
   (roi_C3 { testInputs with headcount := 0 } .conservative rfl).1,
   (roi_C3 { testInputs with headcount := 0 } .conservative rfl).2.2.2.2.2.2.2.2.2.2.1,
   (roi_C3 { testInputs with headcount := 0 } .conservative rfl).2.2.2.2.2.2.2.2.2.2.2.2.2.2.2⟩

/-- C6: for every valid parameter set and every scenario, the payback is
`min(36, 12·licenceCost / max(totalAnnualSavings, 1))`, never exceeds 36,
and is clamped to exactly 36 whenever total savings are at most 1. -/
theorem roi_C6 (p : ROICalculationInputs) (s : Scenario) (hV : ValidInputs p) :
    (calculateROI p s).paybackMonths =
      min 36 (12 * (calculateROI p s).licenceCost /
        max (calculateROI p s).totalAnnualSavings 1) ∧
    (calculateROI p s).paybackMonths ≤ 36 ∧
    ((calculateROI p s).totalAnnualSavings ≤ 1 → (calculateROI p s).paybackMonths = 36) := by
  rw [calculateROI_eq_body p s hV.headcount_ne_zero]
  show paybackMonths p s = min 36 (12 * licenceCost p / max (totalAnnualSavings p s) 1) ∧
    paybackMonths p s ≤ 36 ∧ (totalAnnualSavings p s ≤ 1 → paybackMonths p s = 36)
  refine ⟨rfl, min_le_left _ _, fun hts => ?_⟩
  unfold paybackMonths
  rw [max_eq_right hts]
  have hlc := licenceCost_ge_750 p
  rw [min_eq_left (by linarith)]

/-- Witness for C6 at the concrete test-harness input under the expected
scenario. -/
theorem roi_C6_witness :
    ValidInputs testInputs ∧
    (calculateROI testInputs .expected).paybackMonths ≤ 36 :=
  ⟨by decide, (roi_C6 testInputs .expected (by decide)).2.1⟩

/-- C9: for every headcount in [1, 100000] the resolver's annual price is
at least 750; hence on every valid input the engine's licence cost is
positive, the ROI fallback branch is dead, and the ROI percentage always
equals netBenefit / licenceCost × 100. -/
theorem roi_C9 (hc : ℚ) (h1 : 1 ≤ hc) (h2 : hc ≤ 100000)
    (p : ROICalculationInputs) (s : Scenario) (hV : ValidInputs p) :
    750 ≤ (calculateSoftwareCost hc).annualPrice ∧
    0 < (calculateROI p s).licenceCost ∧
    (calculateROI p s).roiPercentage =
      (calculateROI p s).netBenefit / (calculateROI p s).licenceCost * 100 := by
  refine ⟨annualPrice_ge_750 hc, ?_, ?_⟩ <;>
    rw [calculateROI_eq_body p s hV.headcount_ne_zero]
  · show 0 < licenceCost p
    have := licenceCost_ge_750 p
    linarith
  · show roiPercentage p s = netBenefit p s / licenceCost p * 100
    unfold roiPercentage
    have hlc := licenceCost_ge_750 p
    rw [if_pos (by linarith)]

/-- Witness for C9 at headcount 100 and the concrete test-harness input. -/
theorem roi_C9_witness :
    (1 : ℚ) ≤ 100 ∧ (100 : ℚ) ≤ 100000 ∧ ValidInputs testInputs ∧
    0 < (calculateROI testInputs .expected).licenceCost :=
  ⟨by norm_num, by norm_num, by decide,
   (roi_C9 100 (by norm_num) (by norm_num) testInputs .expected (by decide)).2.1⟩

/-- C5 counterexample: at headcount 0 the resolver returns the lowest
tier's nominal per-user price 15, not the claimed 0 — the guarded
division the claim describes does not exist in the code. -/
theorem roi_C5_counterexample :
    (calculateSoftwareCost 0).perUser = 15 ∧ (calculateSoftwareCost 0).perUser ≠ 0 := by
  constructor <;>
    norm_num [calculateSoftwareCost, selectedTier, selectTierAux, SOFTWARE_PRICING_TIERS, jsRound]

/-- C5 amended: once a discount band applies (headcount ≥ 5000) the
per-user price is the discounted annual price divided by headcount,
rounded to two decimals; at headcount 0 no discount band applies and the
resolver returns the lowest tier's nominal per-user price 15 (the
division is never reached, not guarded). -/
theorem roi_C5 (hc : ℚ) (h : 5000 ≤ hc) :
    (calculateSoftwareCost hc).perUser =
      (jsRound ((calculateSoftwareCost hc).annualPrice / hc * 100) : ℚ) / 100 ∧
    (calculateSoftwareCost 0).perUser = 15 := by
  refine ⟨?_, by norm_num [calculateSoftwareCost, selectedTier, selectTierAux,
    SOFTWARE_PRICING_TIERS, jsRound]⟩
  unfold calculateSoftwareCost selectedTier
  simp only [SOFTWARE_PRICING_TIERS, List.reverse, List.reverseAux, selectTierAux]
  split_ifs <;> norm_num [jsRound]

/-- Witness for C5 at headcount 5000. -/
theorem roi_C5_witness :
    (5000 : ℚ) ≤ 5000 ∧
    (calculateSoftwareCost 5000).perUser =
      (jsRound ((calculateSoftwareCost 5000).annualPrice / 5000 * 100) : ℚ) / 100 :=
  ⟨by norm_num, (roi_C5 5000 (by norm_num)).1⟩

/-- C2 counterexample: at the test-harness input the engine's absence
saving is 8910 (= 198 baseline days × €300 × 15%), which is not within
5% of the claimed 891 (the `// 891` comment in the harness is off by a
factor of ten from the expression it annotates). -/
theorem roi_C2_counterexample :
    (calculateROI testInputs .expected).absenceSaving = 8910 ∧
    ¬(|(calculateROI testInputs .expected).absenceSaving - 891| / 891 * 100 < 5) := by
  have hval : (calculateROI testInputs .expected).absenceSaving = 8910 := by
    norm_num [calculateROI, calculateROIBody, absenceSaving, msdAbsenceBaselineDays,
      dseUserCount, adjustedReductionInMsdAbsence, testInputs]
  rw [hval]
  norm_num

/-- C2 amended: at the test-harness input, adminSaving is within 5% of
13000 and interventionSaving within 5% of 450 as claimed, and
absenceSaving is within 5% of 8910 (the value the harness's own formula
produces) rather than of 891. -/
theorem roi_C2 :
    |(calculateROI testInputs .expected).adminSaving - 13000| / 13000 * 100 < 5 ∧
    |(calculateROI testInputs .expected).absenceSaving - 8910| / 8910 * 100 < 5 ∧
    |(calculateROI testInputs .expected).interventionSaving - 450| / 450 * 100 < 5 := by
  have h1 : (calculateROI testInputs .expected).adminSaving = 13000 := by
    norm_num [calculateROI, calculateROIBody, adminSaving, adminCostNow,
      adminCostWithSoftware, onCostMultiplier, adjustedAdminTimeWithSoftware, testInputs]
  have h2 : (calculateROI testInputs .expected).absenceSaving = 8910 := by
    norm_num [calculateROI, calculateROIBody, absenceSaving, msdAbsenceBaselineDays,
      dseUserCount, adjustedReductionInMsdAbsence, testInputs]
  have h3 : (calculateROI testInputs .expected).interventionSaving = 450 := by
    norm_num [calculateROI, calculateROIBody, interventionSaving, dseUserCount,
      adjustedReductionInClinicalInterventions, testInputs]
  rw [h1, h2, h3]
  norm_num

/-- C1: under the expected scenario no adjustment is applied and every
result field equals direct evaluation of the derived sequence on the
unadjusted inputs. -/
theorem roi_C1 (p : ROICalculationInputs) (hV : ValidInputs p) :
    (calculateROI p .expected).adminCostNow =
      p.adminSalary * (1 + p.adminOnCostPercentage / 100) * (p.adminTimeNow / 5) ∧
    (calculateROI p .expected).adminCostWithSoftware =
      p.adminSalary * (1 + p.adminOnCostPercentage / 100) * (p.adminTimeWithSoftware / 5) ∧
    (calculateROI p .expected).adminSaving =
      (calculateROI p .expected).adminCostNow - (calculateROI p .expected).adminCostWithSoftware ∧
    (calculateROI p .expected).licenceCost = (calculateSoftwareCost p.headcount).annualPrice ∧
    (calculateROI p .expected).msdAbsenceBaselineDays =
      p.headcount * (p.dseUserPercentage / 100) * (p.baselineAbsenceRate / 100) *
        p.workDaysPerYear * (p.absenceDueToMsdPercentage / 100) ∧
    (calculateROI p .expected).absenceSaving =
      (calculateROI p .expected).msdAbsenceBaselineDays * p.costPerAbsenceDay *
        (p.reductionInMsdAbsence / 100) ∧
    (calculateROI p .expected).interventionSaving =
      p.headcount * (p.dseUserPercentage / 100) * (p.msdPrevalence / 100) *
        (p.reductionInClinicalInterventions / 100) * p.costPerClinicalIntervention *
        (p.msdNeedingInterventionPercentage / 100) ∧
    (calculateROI p .expected).totalAnnualSavings =
      (calculateROI p .expected).adminSaving + (calculateROI p .expected).absenceSaving +
        (calculateROI p .expected).interventionSaving ∧
    (calculateROI p .expected).netBenefit =
      (calculateROI p .expected).totalAnnualSavings - (calculateROI p .expected).licenceCost := by
  rw [calculateROI_eq_body p .expected hV.headcount_ne_zero]
  refine ⟨?_, ?_, rfl, rfl, ?_, rfl, ?_, rfl, rfl⟩
  · show adminCostNow p = _
    unfold adminCostNow onCostMultiplier
    ring
  · show adminCostWithSoftware p .expected = _
    unfold adminCostWithSoftware onCostMultiplier adjustedAdminTimeWithSoftware
    ring
  · show msdAbsenceBaselineDays p = _
    unfold msdAbsenceBaselineDays dseUserCount
    ring
  · show interventionSaving p .expected = _
    unfold interventionSaving dseUserCount adjustedReductionInClinicalInterventions
    ring

/-- Witness for C1 at the concrete test-harness input. -/
theorem roi_C1_witness :
    ValidInputs testInputs ∧
    (calculateROI testInputs .expected).adminCostNow =
      testInputs.adminSalary * (1 + testInputs.adminOnCostPercentage / 100) *
        (testInputs.adminTimeNow / 5) :=
  ⟨by decide, (roi_C1 testInputs (by decide)).1⟩

/-- C10: with a valid input, dseUserPercentage = 0 and positive total
savings, the breakeven computation divides licence cost by
`totalAnnualSavings / 0` — an infinity under JavaScript semantics — and
therefore returns the finite value 0 with a valid result, not NaN and
not an error. -/
theorem roi_C10 (p : ROICalculationInputs) (s : Scenario) (hV : ValidInputs p)
    (hdse : p.dseUserPercentage = 0)
    (hts : 0 < (calculateROI p s).totalAnnualSavings) :
    (calculateROI p s).isValid = true ∧
    (calculateROI p s).breakevenUsers = .fin 0 := by
  rw [calculateROI_eq_body p s hV.headcount_ne_zero] at hts ⊢
  refine ⟨rfl, ?_⟩
  show breakevenUsers p s = .fin 0
  have hts' : 0 < totalAnnualSavings p s := hts
  have hdse0 : dseUserCount p = 0 := by
    unfold dseUserCount
    rw [hdse]
    ring
  unfold breakevenUsers
  rw [if_pos hts', hdse0]
  have hinner : jsDiv (.fin (totalAnnualSavings p s)) (.fin 0) = .posInf := by
    simp only [jsDiv]
    rw [if_pos trivial, if_neg (ne_of_gt hts'), if_pos hts']
  have houter : jsDiv (.fin (licenceCost p)) .posInf = .fin 0 := rfl
  rw [hinner, houter]
  simp [jsCeil]

/-- Witness for C10: the test-harness input with dseUserPercentage set
to 0 keeps a positive total saving (13000 from admin time alone) and
yields breakeven users 0. -/
theorem roi_C10_witness :
    ValidInputs { testInputs with dseUserPercentage := 0 } ∧
    ({ testInputs with dseUserPercentage := 0 } : ROICalculationInputs).dseUserPercentage = 0 ∧
    0 < (calculateROI { testInputs with dseUserPercentage := 0 } .expected).totalAnnualSavings ∧
    (calculateROI { testInputs with dseUserPercentage := 0 } .expected).breakevenUsers = .fin 0 := by
  have hts : 0 < (calculateROI { testInputs with dseUserPercentage := 0 }
      .expected).totalAnnualSavings := by
    norm_num [calculateROI, calculateROIBody, totalAnnualSavings, adminSaving,
      absenceSaving, interventionSaving, adminCostNow, adminCostWithSoftware,
      onCostMultiplier, dseUserCount, msdAbsenceBaselineDays,
      adjustedAdminTimeWithSoftware, adjustedReductionInMsdAbsence,
      adjustedReductionInClinicalInterventions, testInputs]
  exact ⟨by decide, rfl, hts,
    (roi_C10 { testInputs with dseUserPercentage := 0 } .expected (by decide) rfl hts).2⟩

/-- C8 counterexample: the test-harness record with adminSalary set to 0
satisfies every other declared constraint, yet validation fails — the
schema demands strictly positive currency amounts (`gt(0)`), so zero is
rejected, not accepted. -/
theorem roi_C8_counterexample :
    validateInputs { testInputs with adminSalary := 0 } =
      .failure ["adminSalary: Must be greater than 0"] := by
  decide

/-- C8 amended: currency-typed fields must be strictly greater than 0;
any record with a currency field equal to 0 (here adminSalary) fails
validation with the corresponding `Must be greater than 0` message. -/
theorem roi_C8 (i : ROICalculationInputs) (h : i.adminSalary = 0) :
    ∃ errs, validateInputs i = .failure errs ∧
      "adminSalary: Must be greater than 0" ∈ errs := by
  have hmem : "adminSalary: Must be greater than 0" ∈ validationErrorList i := by
    unfold validationErrorList
    simp [errIf, h, List.mem_append]
  have hne : validationErrorList i ≠ [] := by
    intro h0
    rw [h0] at hmem
    exact absurd hmem (List.not_mem_nil _)
  refine ⟨validationErrorList i, ?_, hmem⟩
  unfold validateInputs
  rw [if_neg hne]

/-- Witness for C8 at the concrete zero-salary record. -/
theorem roi_C8_witness :
    ({ testInputs with adminSalary := 0 } : ROICalculationInputs).adminSalary = 0 ∧
    ∃ errs, validateInputs { testInputs with adminSalary := 0 } = .failure errs ∧
      "adminSalary: Must be greater than 0" ∈ errs :=
  ⟨rfl, roi_C8 { testInputs with adminSalary := 0 } rfl⟩

/-- Writing a field's current value back is the identity copy. -/
theorem setField_getField (p : ROICalculationInputs) (f : InputField) :
    setField p f (getField p f) = p := by
  cases f <;> rfl

/-- Lemma: `setField` leaves every other field unchanged: the modified record is
a copy of `p` in which only `f` differs. -/
theorem getField_setField_ne (p : ROICalculationInputs) (f g : InputField) (x : ℚ)
    (hne : g ≠ f) : getField (setField p f x) g = getField p g := by
  cases f <;> cases g <;> simp_all [getField, setField]

/-- C7: for every field and every variation in the sweep, the analyzer
records exactly the engine's expected-scenario roi/payback/netBenefit on
the copy of `p` whose field `f` is shifted to baseline + baseline·v/100;
at variation 0 the modified copy is `p` itself, so the point reproduces
`calculateROI p 'expected'` exactly. -/
theorem roi_C7 (p : ROICalculationInputs) (f : InputField) (v : ℚ)
    (hV : ValidInputs p) (hv : v ∈ sensitivityVariations) :
    ∃ c, performSensitivityAnalysis p [f] = [c] ∧
      sensitivityPoint p f v ∈ c.variations ∧
      (sensitivityPoint p f v).variation = v ∧
      (sensitivityPoint p f v).roi =
        (calculateROI (setField p f (getField p f + getField p f * (v / 100)))
          .expected).roiPercentage ∧
      (sensitivityPoint p f v).paybackMonths =
        (calculateROI (setField p f (getField p f + getField p f * (v / 100)))
          .expected).paybackMonths ∧
      (sensitivityPoint p f v).netBenefit =
        (calculateROI (setField p f (getField p f + getField p f * (v / 100)))
          .expected).netBenefit ∧
      (∀ pt ∈ c.variations, pt.variation = v → pt = sensitivityPoint p f v) ∧
      (v = 0 → setField p f (getField p f + getField p f * (v / 100)) = p) := by
  refine ⟨_, rfl, List.mem_map_of_mem (sensitivityPoint p f) hv, rfl, rfl, rfl, rfl, ?_, ?_⟩
  · intro pt hpt hvar
    obtain ⟨w, hw, rfl⟩ := List.mem_map.1 hpt
    have hw2 : w = v := hvar
    rw [hw2]
  · intro h0
    subst h0
    have hb : getField p f + getField p f * (0 / 100) = getField p f := by ring
    rw [hb, setField_getField]

/-- Witness for C7 at the concrete test-harness input, field adminSalary,
variation 0. -/
theorem roi_C7_witness :
    ValidInputs testInputs ∧ (0 : ℚ) ∈ sensitivityVariations ∧
    ∃ c, performSensitivityAnalysis testInputs [.adminSalary] = [c] ∧
      sensitivityPoint testInputs .adminSalary 0 ∈ c.variations ∧
      (sensitivityPoint testInputs .adminSalary 0).variation = 0 ∧
      (sensitivityPoint testInputs .adminSalary 0).roi =
        (calculateROI (setField testInputs .adminSalary
          (getField testInputs .adminSalary +
            getField testInputs .adminSalary * (0 / 100))) .expected).roiPercentage ∧
      (sensitivityPoint testInputs .adminSalary 0).paybackMonths =
        (calculateROI (setField testInputs .adminSalary
          (getField testInputs .adminSalary +
            getField testInputs .adminSalary * (0 / 100))) .expected).paybackMonths ∧
      (sensitivityPoint testInputs .adminSalary 0).netBenefit =
        (calculateROI (setField testInputs .adminSalary
          (getField testInputs .adminSalary +
            getField testInputs .adminSalary * (0 / 100))) .expected).netBenefit ∧
      (∀ pt ∈ c.variations, pt.variation = 0 →
        pt = sensitivityPoint testInputs .adminSalary 0) ∧
      ((0 : ℚ) = 0 → setField testInputs .adminSalary
        (getField testInputs .adminSalary +
          getField testInputs .adminSalary * (0 / 100)) = testInputs) :=
  ⟨by decide, by decide, roi_C7 testInputs .adminSalary 0 (by decide) (by decide)⟩

/-- On a valid input, total annual savings are monotone across the
scenario ladder conservative ≤ expected ≤ stretch. -/
theorem totalAnnualSavings_mono (p : ROICalculationInputs) (hV : ValidInputs p) :
    totalAnnualSavings p .conservative ≤ totalAnnualSavings p .expected ∧
    totalAnnualSavings p .expected ≤ totalAnnualSavings p .stretch := by
  obtain ⟨-, hhc1, -, hdse0, -, hsal, -, -, -, -, -, hbar0, -, hcpd, hmsd0, -, hrma0, -,
    hrci0, -, hcpci, -, hwd0, -, hamp0, -, hmni0, -, haoc0, -⟩ := hV
  have hA : (0 : ℚ) ≤ p.adminSalary * onCostMultiplier p := by
    unfold onCostMultiplier
    apply mul_nonneg (le_of_lt hsal)
    linarith
  have hdse : (0 : ℚ) ≤ dseUserCount p := by
    unfold dseUserCount
    apply mul_nonneg (by linarith) (by linarith)
  have hMb : (0 : ℚ) ≤ msdAbsenceBaselineDays p := by
    unfold msdAbsenceBaselineDays
    exact mul_nonneg (mul_nonneg (mul_nonneg hdse (by linarith)) (by linarith)) (by linarith)
  have hM : (0 : ℚ) ≤ msdAbsenceBaselineDays p * p.costPerAbsenceDay :=
    mul_nonneg hMb (le_of_lt hcpd)
  have hP : (0 : ℚ) ≤ dseUserCount p * (p.msdPrevalence / 100) *
      p.costPerClinicalIntervention * (p.msdNeedingInterventionPercentage / 100) :=
    mul_nonneg (mul_nonneg (mul_nonneg hdse (by linarith)) (le_of_lt hcpci)) (by linarith)
  have hAdm1 : adminSaving p .conservative ≤ adminSaving p .expected := by
    unfold adminSaving adminCostWithSoftware adjustedAdminTimeWithSoftware
    nlinarith [hA]
  have hAdm2 : adminSaving p .stretch = adminSaving p .expected := rfl
  have hAbs1 : absenceSaving p .conservative ≤ absenceSaving p .expected := by
    unfold absenceSaving adjustedReductionInMsdAbsence
    nlinarith [mul_nonneg hM hrma0]
  have hAbs2 : absenceSaving p .expected ≤ absenceSaving p .stretch := by
    unfold absenceSaving adjustedReductionInMsdAbsence
    nlinarith [mul_nonneg hM hrma0]
  have hInt1 : interventionSaving p .conservative ≤ interventionSaving p .expected := by
    unfold interventionSaving adjustedReductionInClinicalInterventions
    nlinarith [mul_nonneg hP hrci0]
  have hInt2 : interventionSaving p .expected ≤ interventionSaving p .stretch := by
    unfold interventionSaving adjustedReductionInClinicalInterventions
    nlinarith [mul_nonneg hP hrci0]
  unfold totalAnnualSavings
  constructor
  · have := add_le_add (add_le_add hAdm1 hAbs1) hInt1
    linarith
  · rw [hAdm2]
    have := add_le_add (add_le_add (le_refl (adminSaving p .expected)) hAbs2) hInt2
    linarith

/-- C4: with a valid input and positive expected-scenario savings, the
three scenario results are ordered conservative ≤ expected ≤ stretch in
both ROI percentage and net benefit (conservative adds 0.5 days/week of
admin time and halves both reductions; stretch scales both reductions by
1.5; the licence cost is common to all three). -/
theorem roi_C4 (p : ROICalculationInputs) (hV : ValidInputs p)
    (hpos : 0 < (calculateAllScenarios p).expected.totalAnnualSavings) :
    (calculateAllScenarios p).conservative.roiPercentage ≤
      (calculateAllScenarios p).expected.roiPercentage ∧
    (calculateAllScenarios p).expected.roiPercentage ≤
      (calculateAllScenarios p).stretch.roiPercentage ∧
    (calculateAllScenarios p).conservative.netBenefit ≤
      (calculateAllScenarios p).expected.netBenefit ∧
    (calculateAllScenarios p).expected.netBenefit ≤
      (calculateAllScenarios p).stretch.netBenefit := by
  have hne := hV.headcount_ne_zero
  have e1 : (calculateAllScenarios p).conservative = calculateROIBody p .conservative :=
    calculateROI_eq_body p .conservative hne
  have e2 : (calculateAllScenarios p).expected = calculateROIBody p .expected :=
    calculateROI_eq_body p .expected hne
  have e3 : (calculateAllScenarios p).stretch = calculateROIBody p .stretch :=
    calculateROI_eq_body p .stretch hne
  rw [e1, e2, e3]
  obtain ⟨hts1, hts2⟩ := totalAnnualSavings_mono p hV
  have hnb1 : netBenefit p .conservative ≤ netBenefit p .expected :=
    sub_le_sub_right hts1 _
  have hnb2 : netBenefit p .expected ≤ netBenefit p .stretch :=
    sub_le_sub_right hts2 _
  have hlc0 : 0 < licenceCost p := by
    have := licenceCost_ge_750 p
    linarith
  refine ⟨?_, ?_, hnb1, hnb2⟩ <;>
    · show roiPercentage p _ ≤ roiPercentage p _
      unfold roiPercentage
      rw [if_pos hlc0, if_pos hlc0]
      gcongr

/-- Witness for C4 at the concrete test-harness input. -/
theorem roi_C4_witness :
    ValidInputs testInputs ∧
    0 < (calculateAllScenarios testInputs).expected.totalAnnualSavings ∧
    (calculateAllScenarios testInputs).conservative.roiPercentage ≤
      (calculateAllScenarios testInputs).expected.roiPercentage := by
  have hpos : 0 < (calculateAllScenarios testInputs).expected.totalAnnualSavings := by
    norm_num [calculateAllScenarios, calculateROI, calculateROIBody, totalAnnualSavings,
      adminSaving, absenceSaving, interventionSaving, adminCostNow, adminCostWithSoftware,
      onCostMultiplier, dseUserCount, msdAbsenceBaselineDays, adjustedAdminTimeWithSoftware,
      adjustedReductionInMsdAbsence, adjustedReductionInClinicalInterventions, testInputs]
  exact ⟨by decide, hpos, (roi_C4 testInputs (by decide) hpos).1⟩
